import Mathlib

/-!
Verification development for a university-records CRUD service
(`dtool/validators.py`, `dtool/crud.py`, `student.py`, `master.py`, `course.py`).

Python strings are modelled as Lean `String` (a list of Unicode code points),
Python non-negative ints as `Nat`, Python dicts as insertion-ordered
association lists with last-write-wins update (`dictSet`), and the relational
store as three association lists keyed by the primary identifier.
`HTTPException`s and unhandled Python exceptions are modelled by the
`Err` sum type; every handler returns `Except Err α`.
-/

namespace SMS

/-! ## Character classes used by the Python regexes (`re` with `str` patterns) -/

/-- The set matched by the Python `\s` class on `str` patterns (Unicode whitespace). -/
def isPySpace (c : Char) : Bool :=
  (9 ≤ c.toNat && c.toNat ≤ 13) || c.toNat == 32 || (28 ≤ c.toNat && c.toNat ≤ 31) ||
  c.toNat == 133 || c.toNat == 160 || c.toNat == 5760 ||
  (8192 ≤ c.toNat && c.toNat ≤ 8202) || c.toNat == 8232 || c.toNat == 8233 ||
  c.toNat == 8239 || c.toNat == 8287 || c.toNat == 12288

/-- ASCII digits `1`-`9` (the regex range `1-9`). -/
def isDigit19 (c : Char) : Bool :=
  0x31 ≤ c.toNat && c.toNat ≤ 0x39

/-- ASCII digits `0`-`9` (the regex class `[0-9]`, and `\d` restricted to ASCII). -/
def isDigit09 (c : Char) : Bool :=
  0x30 ≤ c.toNat && c.toNat ≤ 0x39

/-- The Unicode Arabic block `؀-ۿ`. -/
def isArabicBlock (c : Char) : Bool :=
  0x600 ≤ c.toNat && c.toNat ≤ 0x6FF

/-- The character class of the `check_farsi_name` regex: `[؀-ۿ\s1-9]`. -/
def farsiAllowed (c : Char) : Bool :=
  isArabicBlock c || isPySpace c || isDigit19 c

/-- A Latin letter `a`-`z` or `A`-`Z`. -/
def isLatinLetter (c : Char) : Bool :=
  (0x41 ≤ c.toNat && c.toNat ≤ 0x5A) || (0x61 ≤ c.toNat && c.toNat ≤ 0x7A)

/-- The Python `\w` word characters, restricted to ASCII alphanumerics and `_`.
(The Unicode `\w` of Python also covers non-ASCII letters and digits; the `\W?`
separator positions in the phone regex are only ever exercised on ASCII
input in this development.) -/
def isWordChar (c : Char) : Bool :=
  isLatinLetter c || isDigit09 c || c == '_'

/-! ## `validators.check_farsi_name`

Source: `re.match(r"^[؀-ۿ\s1-9]+$", n)`.  `re.match` anchors at the
start; `$` matches at the end of the string or just before a final newline.
Since `\n` is itself in the character class, the regex matches exactly the
non-empty strings all of whose characters lie in the class. -/

def check_farsi_name (n : String) : Bool :=
  !n.data.isEmpty && n.data.all farsiAllowed

/-! ## Python substring containment (`a in b` on strings) -/

/-- `needle` occurs as a contiguous sublist of `hay`. -/
def isSubstrOf (needle hay : List Char) : Bool :=
  (List.range (hay.length + 1)).any (fun i => needle.isPrefixOf (hay.drop i))

/-- The Python test `sub in s` on strings. -/
def pyIn (sub s : String) : Bool :=
  isSubstrOf sub.data s.data

/-- `s.startswith(pre)` / `re.findall(r"^pre", s)` truthiness. -/
def pyStartsWith (pre s : String) : Bool :=
  pre.data.isPrefixOf s.data

/-! ## The reference-set validators

`college_trust` carries its list inline in the source.  `is_center`,
`is_cities` and `trust` load their lists from JSON files
(`iran_provinces.json`, `province.json`, `engineering_fields.json`) that are
data of this repository not present under `src/`; per the spec (§4.1, §6)
they are static reference lists, modelled here as an explicit list parameter.

Each of these functions is a Python loop that `return True`s on a hit and
falls off the end otherwise, so the Python return value is `True` or `None`;
the result type is therefore `Option Bool`, with `none` for Python `None`. -/

def lst_college : List String :=
  ["فنی و مهندسی", "علوم پایه", "علوم انسانی", "دامپزشکی", "اقتصاد", "کشاورزی", "منابع طبیعی"]

/-- `college_trust(n)`: for each trusted name, test `n in lst` (the candidate
must be a substring of the trusted name). -/
def college_trust_aux (n : String) : List String → Option Bool
  | [] => none
  | lst :: rest => if pyIn n lst then some true else college_trust_aux n rest

def college_trust (n : String) : Option Bool :=
  college_trust_aux n lst_college

/-- `is_center(n)`: for each province name `char` in the list, test `char in n`. -/
def is_center (ob : List String) (n : String) : Option Bool :=
  match ob with
  | [] => none
  | c :: rest => if pyIn c n then some true else is_center rest n

/-- `is_cities(n)`: for each city name `char` in the list, test `char in n`. -/
def is_cities (ob : List String) (n : String) : Option Bool :=
  match ob with
  | [] => none
  | c :: rest => if pyIn c n then some true else is_cities rest n

/-- `trust(n)`: for each field name `char` in the list, test `n in char`. -/
def trust (ob : List String) (n : String) : Option Bool :=
  match ob with
  | [] => none
  | c :: rest => if pyIn n c then some true else trust rest n

/-! ## Decimal digits of a Python int (`str(n)` for `n ≥ 0`) -/

def decDigitsAux : Nat → Nat → List Nat
  | 0, _ => []
  | fuel + 1, n => if n < 10 then [n] else decDigitsAux fuel (n / 10) ++ [n % 10]

/-- The decimal digits of `n`, most significant first; `str(n)` character by
character. The fuel `n` always suffices since `n ≥ 1` has at most `n` digits. -/
def decDigits (n : Nat) : List Nat :=
  if n = 0 then [0] else decDigitsAux n n

/-- `len(str(n))` for a non-negative Python int. -/
def strLen (n : Nat) : Nat :=
  (decDigits n).length

/-! ## `validators.validate_national_id`

The Python builds `n_id` as
`"0" * (10 - len(str(n)) + n)` when `len(str(n)) < 10` — the repetition
count includes `n` itself, so `n_id` is a string of `10 - len(str(n)) + n`
zero characters (not the left-zero-padded `str(n)`) — and as `str(n)` when
the length is exactly 10.  Since indexing only touches positions 0..9 and
`n ≥ 10^7` whenever the zero-string branch is taken, no `IndexError` occurs;
the string is modelled by its length and its character-at-index function. -/

structure PyStr where
  len : Nat
  get : Nat → Nat

def PyStr.zeros (k : Nat) : PyStr :=
  ⟨k, fun _ => 0⟩

def PyStr.ofDigits (ds : List Nat) : PyStr :=
  ⟨ds.length, fun i => ds.getD i 0⟩

def nid_coefficients : List Nat := [10, 9, 8, 7, 6, 5, 4, 3, 2]

def validate_national_id (n : Nat) : Bool :=
  let L := strLen n
  if L < 8 || 10 < L then false
  else
    let n_id : PyStr :=
      if L < 10 then PyStr.zeros (10 - L + n) else PyStr.ofDigits (decDigits n)
    let total := (List.range 9).foldl
      (fun acc i => acc + n_id.get i * nid_coefficients.getD i 0) 0
    let reminder := total % 11
    if reminder < 2 then n_id.get 9 == reminder else n_id.get 9 == 11 - reminder

/-- The national-ID rule as the spec states it (§4.1): normalize to 10 digits
by left-padding `str(n)` with zeros when it has 8 or 9 digits, reject other
lengths, then check the weighted checksum (weights 10 down to 2 over the
first 9 digits, mod 11) against the last digit. -/
def spec_validate_national_id (n : Nat) : Bool :=
  let ds := decDigits n
  let L := ds.length
  if L < 8 || 10 < L then false
  else
    let padded := List.replicate (10 - L) 0 ++ ds
    let total := (List.range 9).foldl
      (fun acc i => acc + padded.getD i 0 * nid_coefficients.getD i 0) 0
    let reminder := total % 11
    if reminder < 2 then padded.getD 9 0 == reminder
    else padded.getD 9 0 == 11 - reminder

/-! ## `validators.check_shamsi` -/

/-- Jalali leap years in the 33-year cycle used by the `jdatetime` library. -/
def jalali_leap (y : Nat) : Bool :=
  [1, 5, 9, 13, 17, 22, 26, 30].contains (y % 33)

def jalali_month_days (y m : Nat) : Nat :=
  if m ≤ 6 then 31 else if m ≤ 11 then 30 else if jalali_leap y then 30 else 29

def digitVal (c : Char) : Nat :=
  c.toNat - 0x30

/-- Modelled from the spec: `check_shamsi` delegates parsing to the external
`jdatetime` library (not in `src/`); per §4.1 and the glossary the value must
parse as `YYYY/MM/DD` (four-digit year, two-digit month, two-digit day)
under the Jalali calendar, any parse failure meaning "invalid". -/
def check_shamsi (s : String) : Bool :=
  match s.data with
  | [y1, y2, y3, y4, c1, m1, m2, c2, d1, d2] =>
    c1 == '/' && c2 == '/' &&
    [y1, y2, y3, y4, m1, m2, d1, d2].all isDigit09 &&
    (let y := ((digitVal y1 * 10 + digitVal y2) * 10 + digitVal y3) * 10 + digitVal y4
     let m := digitVal m1 * 10 + digitVal m2
     let d := digitVal d1 * 10 + digitVal d2
     1 ≤ m && m ≤ 12 && 1 ≤ d && d ≤ jalali_month_days y m)
  | _ => false

/-! ## Python truthiness of an `Option Bool` result (`if not X:`) -/

def pyFalsy (o : Option Bool) : Bool :=
  match o with
  | none => true
  | some b => !b

/-! ## The anchored regex fragments of the request handlers

All handler regexes are used through `re.match` / `re.findall(r"^...")`,
i.e. they match a *prefix* of the subject; nothing constrains the rest of
the string.  They are translated to Boolean-equivalent matchers (regex
alternation and the optional `\W?` become disjunctions).  `\d` and `[0-9]`
are modelled as ASCII digits (the Unicode `\d` of Python would also accept
non-ASCII decimal digits, which do not occur in this development). -/

/-- `re.match(r"^(402|401|400)", str(STID))` on the decimal digits. -/
def stidYearOk (ds : List Nat) : Bool :=
  ds.take 3 == [4, 0, 2] || ds.take 3 == [4, 0, 1] || ds.take 3 == [4, 0, 0]

/-- `re.match(r"...114150..", str(STID))`: any 3 characters, the literal
`114150`, then any 2 characters. -/
def stidFixedOk (ds : List Nat) : Bool :=
  decide (11 ≤ ds.length) && ((ds.drop 3).take 6 == [1, 1, 4, 1, 5, 0])

/-- The suffix `[/][0-9]{2}\s{1}[0-9]{6}` of the birth-certificate regex
(prefix match: trailing characters are unconstrained). -/
def matchIDSTail (cs : List Char) : Bool :=
  match cs with
  | sl :: a :: b :: sp :: d1 :: d2 :: d3 :: d4 :: d5 :: d6 :: _ =>
    sl == '/' && isDigit09 a && isDigit09 b && isPySpace sp &&
    [d1, d2, d3, d4, d5, d6].all isDigit09
  | _ => false

/-- `re.match(r"([ا][ل][ف]|[ب-ی])[/][0-9]{2}\s{1}[0-9]{6}", s)`:
the first alternative consumes the literal `الف`, the second a single
character in `U+0628..U+06CC`; the regex backtracks between them. -/
def matchIDS (s : String) : Bool :=
  (match s.data with
   | 'ا' :: 'ل' :: 'ف' :: rest => matchIDSTail rest
   | _ => false) ||
  (match s.data with
   | c :: rest => (0x628 ≤ c.toNat && c.toNat ≤ 0x6CC) && matchIDSTail rest
   | [] => false)

/-- `\d{k}` followed by a continuation. -/
def ndigits : Nat → (List Char → Bool) → List Char → Bool
  | 0, cont, cs => cont cs
  | k + 1, cont, cs =>
    match cs with
    | c :: rest => isDigit09 c && ndigits k cont rest
    | [] => false

/-- `\W?` followed by a continuation (a match exists iff it exists with or
without consuming one non-word character). -/
def optNonWord (cont : List Char → Bool) (cs : List Char) : Bool :=
  (match cs with
   | c :: rest => !isWordChar c && cont rest
   | [] => false) || cont cs

/-- The suffix `\d{2}\W?\d{3}\W?\d{4}` of the mobile-phone regex. -/
def cphoneTail (cs : List Char) : Bool :=
  ndigits 2 (optNonWord (ndigits 3 (optNonWord (ndigits 4 (fun _ => true))))) cs

/-- `re.match(r"((0?9)|(\+?989))\d{2}\W?\d{3}\W?\d{4}", s)`: the head
alternation `(0?9)|(\+?989)` expands to the prefixes `09`, `9`, `+989`, `989`. -/
def matchCPhone (s : String) : Bool :=
  (match s.data with
   | '0' :: '9' :: rest => cphoneTail rest
   | _ => false) ||
  (match s.data with
   | '9' :: rest => cphoneTail rest
   | _ => false) ||
  (match s.data with
   | '+' :: '9' :: '8' :: '9' :: rest => cphoneTail rest
   | _ => false) ||
  (match s.data with
   | '9' :: '8' :: '9' :: rest => cphoneTail rest
   | _ => false)

/-- `re.match(r"[1-5]", s)`: the first character is a digit `1`-`5`. -/
def matchCredit (s : String) : Bool :=
  match s.data with
  | c :: _ => 0x31 ≤ c.toNat && c.toNat ≤ 0x35
  | [] => false

/-- The course credit rule as the spec and the error message in the code
state it: the credit count is a number between 1 and 4. -/
def spec_credit_in_range (s : String) : Bool :=
  !s.data.isEmpty && s.data.all isDigit09 &&
  (let k := s.data.foldl (fun acc c => acc * 10 + digitVal c) 0
   1 ≤ k && k ≤ 4)

/-! ## Entity records (`dtool/schemas.py`, `dtool/model.py`)

`Student` create payloads carry nullable enrollment lists
(`SCourseIDs: list[int] | None`, `LIDs: list[int] | None`, required fields
with no default), hence `Option (List Nat)`; a persisted `StudentRow` always
holds concrete lists (creation only succeeds on the `some` branches).
`Master` and `Lesson` rows coincide with their create payloads. -/

structure StudentPayload where
  STID : Nat
  FName : String
  LName : String
  Father : String
  Birth : String
  IDS : String
  BornCity : String
  Address : String
  PostalCode : Nat
  CPhone : String
  HPhone : String
  Department : String
  Major : String
  Married : String
  ID : Nat
  SCourseIDs : Option (List Nat)
  LIDs : Option (List Nat)
deriving DecidableEq

structure StudentRow where
  STID : Nat
  FName : String
  LName : String
  Father : String
  Birth : String
  IDS : String
  BornCity : String
  Address : String
  PostalCode : Nat
  CPhone : String
  HPhone : String
  Department : String
  Major : String
  Married : String
  ID : Nat
  SCourseIDs : List Nat
  LIDs : List Nat
deriving DecidableEq

structure MasterRec where
  LID : Nat
  FName : String
  LName : String
  ID : Nat
  Department : String
  Major : String
  Birth : String
  BornCity : String
  Address : String
  PostalCode : String
  CPhone : String
  HPhone : String
  LCourseIDs : Option (List Nat)
deriving DecidableEq

structure LessonRec where
  CID : Nat
  CName : String
  Department : String
  Credit : String
deriving DecidableEq

/-! ## The relational store (`db.py`, one association list per table) -/

structure Store where
  students : List (Nat × StudentRow)
  masters : List (Nat × MasterRec)
  lessons : List (Nat × LessonRec)
deriving DecidableEq

def emptyStore : Store := ⟨[], [], []⟩

/-- `db.query(Student).filter(Student.STID == stid).first()`. -/
def lookupStudent (st : Store) (stid : Nat) : Option StudentRow :=
  (st.students.find? (fun kv => kv.1 == stid)).map (fun kv => kv.2)

/-- `db.query(Master).filter(Master.LID == lid).first()`. -/
def lookupMaster (st : Store) (lid : Nat) : Option MasterRec :=
  (st.masters.find? (fun kv => kv.1 == lid)).map (fun kv => kv.2)

/-- `db.query(Lesson).filter(Lesson.CID == cid).first()`. -/
def lookupLesson (st : Store) (cid : Nat) : Option LessonRec :=
  (st.lessons.find? (fun kv => kv.1 == cid)).map (fun kv => kv.2)

/-! ## Errors -/

/-- Outcomes of a request: the `HTTPException`s the handlers raise plus the
unhandled Python exceptions reachable on schema-valid input (`typeError` for
operations on `None` values, `attributeError` for `setattr`/`refresh` on a
missing row in `crud.update_master` / `crud.update_course`). -/
inductive Err where
  | notFound (msg : String)
  | duplicate (msg : String)
  | validation (errors : List (String × String))
  | badRequest (msg : String)
  | typeError
  | attributeError
deriving DecidableEq

instance exceptDecEq {ε α : Type} [DecidableEq ε] [DecidableEq α] :
    DecidableEq (Except ε α) := fun a b =>
  match a, b with
  | .ok x, .ok y =>
    if h : x = y then .isTrue (by rw [h]) else .isFalse (by intro hc; cases hc; exact h rfl)
  | .error x, .error y =>
    if h : x = y then .isTrue (by rw [h]) else .isFalse (by intro hc; cases hc; exact h rfl)
  | .ok _, .error _ => .isFalse (by intro hc; cases hc)
  | .error _, .ok _ => .isFalse (by intro hc; cases hc)

/-! ## Python dict as an insertion-ordered association list -/

/-- `d[k] = v` on a Python dict: update in place if the key exists,
append otherwise. -/
def dictSet (d : List (String × String)) (k v : String) : List (String × String) :=
  if d.any (fun kv => kv.1 == k) then
    d.map (fun kv => if kv.1 == k then (k, v) else kv)
  else d ++ [(k, v)]

def dictKeys (d : List (String × String)) : List String :=
  d.map (fun kv => kv.1)

/-- A validation pass: a sequence of `if cond: errors[key] = msg` statements,
folded over an initial dict. -/
def ruleFold (init : List (String × String)) (rules : List (Bool × String × String)) :
    List (String × String) :=
  rules.foldl (fun d r => if r.1 then dictSet d r.2.1 r.2.2 else d) init

/-! ## `student.create_std` (POST /RegStu) -/

/-- The two foreign-key loops at the top of `create_std` (run before the
duplicate-identifier check). -/
def fkStudentRules (st : Store) (cs ls : List Nat) : List (Bool × String × String) :=
  cs.map (fun c =>
    ((lookupLesson st c).isNone, "Lcourse", "Lesson with ID " ++ toString c ++ " not found")) ++
  ls.map (fun m =>
    ((lookupMaster st m).isNone, "LID", "Master with ID " ++ toString m ++ " not found"))

/-- The field-rule sequence of `create_std`, in source order. -/
def studentFieldRules (cities fields : List String) (p : StudentPayload) :
    List (Bool × String × String) :=
  [ (strLen p.STID != 11, "STID", "The number of digits entered is incorrect"),
    (!stidYearOk (decDigits p.STID), "STID1", "The year field is incorrect"),
    (!stidFixedOk (decDigits p.STID), "STID2", "The fixed field is wrong"),
    (strLen p.STID == 11 &&
      !(1 ≤ (decDigits p.STID).getD 9 0 * 10 + (decDigits p.STID).getD 10 0 &&
        (decDigits p.STID).getD 9 0 * 10 + (decDigits p.STID).getD 10 0 ≤ 99),
      "STID3", "The index part is wrong"),
    (!(check_farsi_name p.FName && check_farsi_name p.LName && check_farsi_name p.Father),
      "name", "All letters must be Farsi or Do not contain special symbols or numbers"),
    (p.FName.length > 10 || p.LName.length > 10 || p.Father.length > 10,
      "name2", "The maximum string length must be ten"),
    (!check_shamsi p.Birth, "Birth", "This date is incorrect"),
    (!matchIDS p.IDS, "IDS", "The letter part of the birth certificate was entered incorrectly"),
    (pyFalsy (is_cities cities p.BornCity), "BornCity", "incorrect province"),
    (100 < p.Address.length, "address", "address incorrectly"),
    (!check_farsi_name p.Address, "address1", "address must be farsi"),
    (strLen p.PostalCode != 10, "postal_code", "postal code is invalued"),
    (!matchCPhone p.CPhone, "CPhone", "Mobile phone number must be start with 09 and 11 digits"),
    (p.HPhone.length != 11, "landline_number", "landline number must be 11 digits"),
    (!pyStartsWith "066" p.HPhone, "landline_number", "is landline number incorrect "),
    (pyFalsy (college_trust p.Department), "name_college", "name college is wrong"),
    (pyFalsy (trust fields p.Major), "field_study", "field of study is wrong"),
    (!(p.Married == "متاهل" || p.Married == "مجرد"), "marital", "is marital status is wrong value"),
    (!validate_national_id p.ID, "code_melli", "code melli is incorrect") ]

def studentRowOf (p : StudentPayload) (cs ls : List Nat) : StudentRow :=
  ⟨p.STID, p.FName, p.LName, p.Father, p.Birth, p.IDS, p.BornCity, p.Address,
   p.PostalCode, p.CPhone, p.HPhone, p.Department, p.Major, p.Married, p.ID, cs, ls⟩

/-- `create_std`: the `for course in users.SCourseIDs` / `for master in
users.LIDs` loops raise `TypeError` when the (schema-nullable) list is
`None`; otherwise they accumulate foreign-key errors, then the
duplicate-identifier check raises alone, then the field rules accumulate
into the same dict, and the student is inserted only if the dict is empty. -/
def create_std (cities fields : List String) (st : Store) (p : StudentPayload) :
    Except Err (StudentRow × Store) :=
  match p.SCourseIDs with
  | none => .error .typeError
  | some cs =>
    match p.LIDs with
    | none => .error .typeError
    | some ls =>
      let e0 := ruleFold [] (fkStudentRules st cs ls)
      if (lookupStudent st p.STID).isSome then
        .error (.duplicate "studentID already exists ,studentID must be unique")
      else
        let e := ruleFold e0 (studentFieldRules cities fields p)
        if e.isEmpty then
          let row := studentRowOf p cs ls
          .ok (row, { st with students := st.students ++ [(p.STID, row)] })
        else .error (.validation e)

/-! ## `master.master` (POST /CreateMaster) -/

/-- The field-rule sequence of `master`, in source order; the trailing
foreign-key loop runs only when `mr.LCourseIDs` is truthy (neither `None`
nor the empty list — iterating the empty list is equivalent). -/
def masterFieldRules (cities fields : List String) (st : Store) (p : MasterRec) :
    List (Bool × String × String) :=
  [ (strLen p.LID != 6, "LID", "The number of digits entered is incorrect"),
    (!check_farsi_name p.FName,
      "FName", "All letters must be Farsi or Do not contain special symbols or numbers"),
    (!check_farsi_name p.LName,
      "LName", "All letters must be Farsi or Do not contain special symbols or numbers"),
    (p.FName.length > 10 || p.LName.length > 10,
      "FName or LName", "The maximum string length must be ten"),
    (!validate_national_id p.ID, "ID", "code melli is incorrect"),
    (pyFalsy (college_trust p.Department), "Department", "name college is wrong"),
    (pyFalsy (trust fields p.Major), "Major", "field of study is wrong"),
    (!check_shamsi p.Birth, "Birth", "This date is incorrect"),
    (pyFalsy (is_cities cities p.BornCity), "BornCity", "incorrect province"),
    (100 < p.Address.length, "Address", "address incorrectly"),
    (p.PostalCode.length != 10, "PostalCode", "postal code is invalued"),
    (!matchCPhone p.CPhone, "CPhone", "Mobile phone number must be start with 09 and 11 digits"),
    (p.HPhone.length != 11, "HPhone", "landline number must be 11 digits"),
    (!pyStartsWith "066" p.HPhone, "landline_number", "is landline number incorrect ") ] ++
  (match p.LCourseIDs with
   | some cs => cs.map (fun c =>
       ((lookupLesson st c).isNone, "LCourseIDs", "Lesson with ID " ++ toString c ++ " not found"))
   | none => [])

/-- `master`: the duplicate-identifier check precedes all rules. -/
def master (cities fields : List String) (st : Store) (p : MasterRec) :
    Except Err (MasterRec × Store) :=
  if (lookupMaster st p.LID).isSome then
    .error (.duplicate ("This teacher exists with the number " ++ toString p.LID))
  else
    let e := ruleFold [] (masterFieldRules cities fields st p)
    if e.isEmpty then .ok (p, { st with masters := st.masters ++ [(p.LID, p)] })
    else .error (.validation e)

/-! ## `course.course` (POST /creatcsr) -/

def courseFieldRules (p : LessonRec) : List (Bool × String × String) :=
  [ (strLen p.CID != 5, "CID", "CID must be 5 digits"),
    (p.CName.length > 25 || !check_farsi_name p.CName,
      "CName", "The maximum length of the string should be 25 and all characters should be Farsi"),
    (pyFalsy (college_trust p.Department), "Department", "name college is wrong"),
    (!matchCredit p.Credit, "credit", "The number of units must be between 1 and 4") ]

/-- `course`: the duplicate-identifier check precedes all rules. -/
def course (st : Store) (p : LessonRec) : Except Err (LessonRec × Store) :=
  if (lookupLesson st p.CID).isSome then
    .error (.duplicate "courseID already exists ,courseID must be unique")
  else
    let e := ruleFold [] (courseFieldRules p)
    if e.isEmpty then .ok (p, { st with lessons := st.lessons ++ [(p.CID, p)] })
    else .error (.validation e)

/-! ## Partial-update payloads (`UpdateStudent`, `UpdateMaster`, `UpdateLesson`)

An optional field with default `None` is modelled as `Option (Option τ)`:
`none` = unset (absent from `model_dump(exclude_unset=True)`), `some none` =
explicitly `null`, `some (some v)` = a value.  `UpdateStudent.SCourseIDs`
and `.LIDs` have no default, so they are always present in the dump and are
modelled as `Option (List Nat)` (`none` = explicit `null`). -/

structure StudentPatch where
  FName : Option (Option String)
  LName : Option (Option String)
  Father : Option (Option String)
  Birth : Option (Option String)
  IDS : Option (Option String)
  BornCity : Option (Option String)
  Address : Option (Option String)
  PostalCode : Option (Option Nat)
  CPhone : Option (Option String)
  HPhone : Option (Option String)
  Department : Option (Option String)
  Major : Option (Option String)
  Married : Option (Option String)
  ID : Option (Option Nat)
  SCourseIDs : Option (List Nat)
  LIDs : Option (List Nat)
deriving DecidableEq

structure MasterPatch where
  FName : Option (Option String)
  LName : Option (Option String)
  ID : Option (Option Nat)
  Department : Option (Option String)
  Major : Option (Option String)
  Birth : Option (Option String)
  BornCity : Option (Option String)
  Address : Option (Option String)
  PostalCode : Option (Option String)
  CPhone : Option (Option String)
  HPhone : Option (Option String)
  LCourseIDs : Option (Option (List Nat))
deriving DecidableEq

structure LessonPatch where
  CName : Option (Option String)
  Department : Option (Option String)
  Credit : Option (Option String)
deriving DecidableEq

/-- An all-unset patch. -/
def emptyLessonPatch : LessonPatch := ⟨none, none, none⟩

/-! ## `dtool/crud.py`: applying a patch

`update_*` first deletes the `None`-valued keys of `updated_data`, then
`setattr`s the remaining key/value pairs; per field this is: set the field
iff its key is present with a non-null value. -/

/-- `none` = key absent from `update_data`, `some none` = key present with
value `None`, `some (some (g v))` = key present with value `v`. -/
def pvMap {α β : Type} : Option (Option α) → (α → β) → Option (Option β)
  | none, _ => none
  | some none, _ => some none
  | some (some v), g => some (some (g v))

/-- View of a required nullable field (always a key of `update_data`). -/
def pvAlways {α β : Type} (o : Option α) (g : α → β) : Option (Option β) :=
  some (o.map g)

/-- One `setattr`-or-keep step: the field is set iff its key is present
with a non-null value (null values were deleted by the first loop). -/
def pvApply {α : Type} (o : Option (Option α)) (d : α) : α :=
  match o with
  | some (some v) => v
  | _ => d

/-- The same for a required nullable key (always present; null dropped). -/
def ovApply {α : Type} (o : Option α) (d : α) : α :=
  match o with
  | some v => v
  | none => d

def applyStudentPatch (r : StudentRow) (p : StudentPatch) : StudentRow :=
  { r with
    FName := pvApply p.FName r.FName
    LName := pvApply p.LName r.LName
    Father := pvApply p.Father r.Father
    Birth := pvApply p.Birth r.Birth
    IDS := pvApply p.IDS r.IDS
    BornCity := pvApply p.BornCity r.BornCity
    Address := pvApply p.Address r.Address
    PostalCode := pvApply p.PostalCode r.PostalCode
    CPhone := pvApply p.CPhone r.CPhone
    HPhone := pvApply p.HPhone r.HPhone
    Department := pvApply p.Department r.Department
    Major := pvApply p.Major r.Major
    Married := pvApply p.Married r.Married
    ID := pvApply p.ID r.ID
    SCourseIDs := ovApply p.SCourseIDs r.SCourseIDs
    LIDs := ovApply p.LIDs r.LIDs }

def applyMasterPatch (r : MasterRec) (p : MasterPatch) : MasterRec :=
  { r with
    FName := pvApply p.FName r.FName
    LName := pvApply p.LName r.LName
    ID := pvApply p.ID r.ID
    Department := pvApply p.Department r.Department
    Major := pvApply p.Major r.Major
    Birth := pvApply p.Birth r.Birth
    BornCity := pvApply p.BornCity r.BornCity
    Address := pvApply p.Address r.Address
    PostalCode := pvApply p.PostalCode r.PostalCode
    CPhone := pvApply p.CPhone r.CPhone
    HPhone := pvApply p.HPhone r.HPhone
    LCourseIDs := pvApply (pvMap p.LCourseIDs some) r.LCourseIDs }

def applyLessonPatch (r : LessonRec) (p : LessonPatch) : LessonRec :=
  { r with
    CName := pvApply p.CName r.CName
    Department := pvApply p.Department r.Department
    Credit := pvApply p.Credit r.Credit }

def replaceStudent (st : Store) (stid : Nat) (r : StudentRow) : Store :=
  { st with students := st.students.map (fun kv => if kv.1 == stid then (stid, r) else kv) }

def replaceMaster (st : Store) (lid : Nat) (r : MasterRec) : Store :=
  { st with masters := st.masters.map (fun kv => if kv.1 == lid then (lid, r) else kv) }

def replaceLesson (st : Store) (cid : Nat) (r : LessonRec) : Store :=
  { st with lessons := st.lessons.map (fun kv => if kv.1 == cid then (cid, r) else kv) }

/-! ## `dtool/crud.py`: read, update, delete -/

def get_student (st : Store) (stid : Nat) : Except Err StudentRow :=
  match lookupStudent st stid with
  | none => .error (.notFound "student is not found")
  | some r => .ok r

def get_msr (st : Store) (lid : Nat) : Except Err MasterRec :=
  match lookupMaster st lid with
  | none => .error (.notFound "master is not found")
  | some r => .ok r

def get_lsn (st : Store) (cid : Nat) : Except Err LessonRec :=
  match lookupLesson st cid with
  | none => .error (.notFound "lesson is not found")
  | some r => .ok r

/-- `crud.update_student`: checks existence, then drops nulls and applies. -/
def update_student (st : Store) (stid : Nat) (p : StudentPatch) :
    Except Err (StudentRow × Store) :=
  match lookupStudent st stid with
  | none => .error (.notFound "student is not found")
  | some row =>
    let row2 := applyStudentPatch row p
    .ok (row2, replaceStudent st stid row2)

/-- `crud.update_master`: performs no existence check, contrary to its own
docstring; on a missing row `setattr`/`db.refresh` is applied to `None`,
raising an unhandled Python exception, modelled as `attributeError`. -/
def update_master (st : Store) (lid : Nat) (p : MasterPatch) :
    Except Err (MasterRec × Store) :=
  match lookupMaster st lid with
  | none => .error .attributeError
  | some row =>
    let row2 := applyMasterPatch row p
    .ok (row2, replaceMaster st lid row2)

/-- `crud.update_course`: same missing existence check as `update_master`. -/
def update_course (st : Store) (cid : Nat) (p : LessonPatch) :
    Except Err (LessonRec × Store) :=
  match lookupLesson st cid with
  | none => .error .attributeError
  | some row =>
    let row2 := applyLessonPatch row p
    .ok (row2, replaceLesson st cid row2)

def del_std (st : Store) (stid : Nat) : Except Err (String × Store) :=
  match lookupStudent st stid with
  | none => .error (.notFound "student is not found")
  | some _ =>
    .ok ("delete record is succesful",
      { st with students := st.students.eraseP (fun kv => kv.1 == stid) })

def del_msr (st : Store) (lid : Nat) : Except Err (String × Store) :=
  match lookupMaster st lid with
  | none => .error (.notFound "master is not found")
  | some _ =>
    .ok ("delete record is succesful",
      { st with masters := st.masters.eraseP (fun kv => kv.1 == lid) })

def del_lsn (st : Store) (cid : Nat) : Except Err (String × Store) :=
  match lookupLesson st cid with
  | none => .error (.notFound "lesson is not found")
  | some _ =>
    .ok ("delete record is succesful",
      { st with lessons := st.lessons.eraseP (fun kv => kv.1 == cid) })

/-! ## Update-handler validation

Update rules fire only for keys present in `update_data`, but they read the
field *value* strictly: most validators raise `TypeError` when handed an
explicit `null` (e.g. `re.match(pattern, None)`, `len(None)`,
`None in "..."`), while `len(str(None))` sees the 4-character string
`"None"` and `validate_national_id(None)` returns `False`.  A rule
condition therefore evaluates to `Except Err Bool`; the first raising rule
aborts the pass. -/

/-- Condition of `if key in update_data and check(value):`, given the
behaviour `nb` of `check(None)`. -/
def nullCond (nb : Except Err Bool) (field : Option (Option α)) (f : α → Bool) :
    Except Err Bool :=
  match field with
  | none => .ok false
  | some none => nb
  | some (some v) => .ok (f v)

/-- `check(None)` raises `TypeError`. -/
def tE : Except Err Bool := .error .typeError

/-- `is_cities(None)` / `is_center(None)`: `char in None` raises unless the
reference list is empty (then the loop body never runs and `None` is falsy). -/
def citiesNone (ob : List String) : Except Err Bool :=
  match ob with
  | [] => .ok true
  | _ :: _ => .error .typeError

/-- `trust(None)`: `None in char` raises unless the list is empty. -/
def trustNone (ob : List String) : Except Err Bool :=
  match ob with
  | [] => .ok true
  | _ :: _ => .error .typeError

/-- Folds rule conditions in source order into an error dict, propagating
the first raised exception. -/
def updFold : List (Except Err Bool × String × String) → List (String × String) →
    Except Err (List (String × String))
  | [], d => .ok d
  | (c, k, v) :: rest, d =>
    match c with
    | .error e => .error e
    | .ok b => updFold rest (if b then dictSet d k v else d)

/-! ## `student.update_std` (PATCH /UpdStu) -/

/-- The keys of `student_update.dict(exclude_unset=True)`.  `SCourseIDs` and
`LIDs` are required fields of `UpdateStudent`, hence always present. -/
def studentPatchKeys (p : StudentPatch) : List String :=
  (if p.FName.isSome then ["FName"] else []) ++
  (if p.LName.isSome then ["LName"] else []) ++
  (if p.Father.isSome then ["Father"] else []) ++
  (if p.Birth.isSome then ["Birth"] else []) ++
  (if p.IDS.isSome then ["IDS"] else []) ++
  (if p.BornCity.isSome then ["BornCity"] else []) ++
  (if p.Address.isSome then ["Address"] else []) ++
  (if p.PostalCode.isSome then ["PostalCode"] else []) ++
  (if p.CPhone.isSome then ["CPhone"] else []) ++
  (if p.HPhone.isSome then ["HPhone"] else []) ++
  (if p.Department.isSome then ["Department"] else []) ++
  (if p.Major.isSome then ["Major"] else []) ++
  (if p.Married.isSome then ["Married"] else []) ++
  (if p.ID.isSome then ["ID"] else []) ++
  ["SCourseIDs", "LIDs"]

/-- The update rules of `update_std`, in source order. -/
def studentUpdRules (cities fields : List String) (p : StudentPatch) :
    List (Except Err Bool × String × String) :=
  [ (nullCond tE p.FName (fun v => !check_farsi_name v),
      "FName", "All letters must be Farsi or Do not contain special symbols or numbers"),
    (nullCond tE p.LName (fun v => !check_farsi_name v),
      "LName", "All letters must be Farsi or Do not contain special symbols or numbers"),
    (nullCond tE p.Father (fun v => !check_farsi_name v),
      "Father", "All letters must be Farsi or Do not contain special symbols or numbers"),
    (nullCond tE p.FName (fun v => v.length > 10),
      "FName1", "The maximum string length must be ten"),
    (nullCond tE p.LName (fun v => v.length > 10),
      "LName1", "The maximum string length must be ten"),
    (nullCond tE p.Father (fun v => v.length > 10),
      "Father1", "The maximum string length must be ten"),
    (nullCond tE p.Birth (fun v => !check_shamsi v), "Birth", "This date is incorrect"),
    (nullCond tE p.IDS (fun v => !matchIDS v),
      "IDS", "The letter part of the birth certificate was entered incorrectly"),
    (nullCond (citiesNone cities) p.BornCity (fun v => pyFalsy (is_cities cities v)),
      "BornCity", "incorrect province"),
    (nullCond tE p.Address (fun v => 100 < v.length), "address", "address incorrectly"),
    (nullCond (.ok true) p.PostalCode (fun v => strLen v != 10),
      "postal_code", "postal code is invalued"),
    (nullCond tE p.CPhone (fun v => !matchCPhone v),
      "CPhone", "Mobile phone number must be start with 09"),
    (nullCond (.ok true) p.HPhone (fun v => v.length != 11),
      "HPhone", "landline number must be 11 digits"),
    (nullCond tE p.HPhone (fun v => !pyStartsWith "066" v),
      "HPhone1", "is landline number incorrect "),
    (nullCond tE p.Department (fun v => pyFalsy (college_trust v)),
      "Department", "name college is wrong"),
    (nullCond (trustNone fields) p.Major (fun v => pyFalsy (trust fields v)),
      "Major", "field of study is wrong"),
    (nullCond (.ok true) p.Married (fun v => !(v == "متاهل" || v == "مجرد")),
      "Married", "is marital status is wrong value"),
    (nullCond (.ok true) p.ID (fun v => !validate_national_id v),
      "ID", "code melli is incorrect") ]

/-- `update_std`: empty-payload check (unreachable, the two list fields are
always present), validation of the provided fields, then
`crud.update_student` — the existence check happens only there, after
validation. -/
def update_std (cities fields : List String) (st : Store) (stid : Nat)
    (p : StudentPatch) : Except Err (StudentRow × Store) :=
  if (studentPatchKeys p).isEmpty then .error (.badRequest "No fields provided for update")
  else
    match updFold (studentUpdRules cities fields p) [] with
    | .error e => .error e
    | .ok es =>
      if es.isEmpty then update_student st stid p
      else .error (.validation es)

/-! ## `master.upd_mas` (PATCH /Updmaster) -/

def masterPatchKeys (p : MasterPatch) : List String :=
  (if p.FName.isSome then ["FName"] else []) ++
  (if p.LName.isSome then ["LName"] else []) ++
  (if p.ID.isSome then ["ID"] else []) ++
  (if p.Department.isSome then ["Department"] else []) ++
  (if p.Major.isSome then ["Major"] else []) ++
  (if p.Birth.isSome then ["Birth"] else []) ++
  (if p.BornCity.isSome then ["BornCity"] else []) ++
  (if p.Address.isSome then ["Address"] else []) ++
  (if p.PostalCode.isSome then ["PostalCode"] else []) ++
  (if p.CPhone.isSome then ["CPhone"] else []) ++
  (if p.HPhone.isSome then ["HPhone"] else []) ++
  (if p.LCourseIDs.isSome then ["LCourseIDs"] else [])

/-- The update rules of `upd_mas`, in source order; the two name checks
share their key, and the trailing foreign-key loop runs only when
`mr.LCourseIDs` is truthy. -/
def masterUpdRules (cities fields : List String) (st : Store) (p : MasterPatch) :
    List (Except Err Bool × String × String) :=
  [ (nullCond tE p.FName (fun v => !check_farsi_name v),
      "FName", "All letters must be Farsi or Do not contain special symbols or numbers"),
    (nullCond tE p.FName (fun v => v.length > 10),
      "FName", "The maximum string length must be ten"),
    (nullCond tE p.LName (fun v => !check_farsi_name v),
      "LName", "All letters must be Farsi or Do not contain special symbols or numbers"),
    (nullCond tE p.LName (fun v => v.length > 10),
      "LName", "The maximum string length must be ten"),
    (nullCond (.ok true) p.ID (fun v => !validate_national_id v),
      "ID", "code melli is incorrect"),
    (nullCond tE p.Department (fun v => pyFalsy (college_trust v)),
      "Department", "name college is wrong"),
    (nullCond (trustNone fields) p.Major (fun v => pyFalsy (trust fields v)),
      "Major", "field of study is wrong"),
    (nullCond tE p.Birth (fun v => !check_shamsi v), "Birth", "This date is incorrect"),
    (nullCond (citiesNone cities) p.BornCity (fun v => pyFalsy (is_cities cities v)),
      "BornCity", "incorrect province"),
    (nullCond tE p.Address (fun v => 100 < v.length), "address", "address incorrectly"),
    (nullCond (.ok true) p.PostalCode (fun v => v.length != 10),
      "PostalCode", "postal code is invalued"),
    (nullCond (.ok true) p.CPhone (fun v => v.length != 11),
      "CPhone", "Mobile phone number must be 11 digits"),
    (nullCond tE p.CPhone (fun v => !pyStartsWith "09" v),
      "CPhone1", "Mobile phone number must be start with 09"),
    (nullCond (.ok true) p.HPhone (fun v => v.length != 11),
      "HPhone", "landline number must be 11 digits"),
    (nullCond tE p.HPhone (fun v => !pyStartsWith "066" v),
      "HPhone1", "is landline number incorrect ") ] ++
  (match p.LCourseIDs with
   | some (some cs) => cs.map (fun c =>
       (Except.ok (lookupLesson st c).isNone, "LCourseIDs",
        "Lesson with ID " ++ toString c ++ " not found"))
   | _ => [])

/-- `upd_mas`: existence check first (404), then empty-payload check, then
validation, then `crud.update_master`. -/
def upd_mas (cities fields : List String) (st : Store) (lid : Nat)
    (p : MasterPatch) : Except Err (MasterRec × Store) :=
  match lookupMaster st lid with
  | none => .error (.notFound "There is no such master")
  | some _ =>
    if (masterPatchKeys p).isEmpty then .error (.badRequest "No fields provided for update")
    else
      match updFold (masterUpdRules cities fields st p) [] with
      | .error e => .error e
      | .ok es =>
        if es.isEmpty then update_master st lid p
        else .error (.validation es)

/-! ## `course.upt_cour` (PATCH /uptcsr) -/

def courseUpdRules (p : LessonPatch) : List (Except Err Bool × String × String) :=
  [ (nullCond tE p.CName (fun v => v.length > 25 || !check_farsi_name v),
      "CName", "The maximum length of the string should be 25 and all characters should be Farsi"),
    (nullCond tE p.Department (fun v => pyFalsy (college_trust v)),
      "Department", "name college is wrong"),
    (nullCond tE p.Credit (fun v => !matchCredit v),
      "credit", "The number of units must be between 1 and 4") ]

/-- `upt_cour`: existence check first (400 "CID is not found"), then
validation (no empty-payload check), then `crud.update_course`. -/
def upt_cour (st : Store) (cid : Nat) (p : LessonPatch) :
    Except Err (LessonRec × Store) :=
  match lookupLesson st cid with
  | none => .error (.notFound "CID is not found")
  | some _ =>
    match updFold (courseUpdRules p) [] with
    | .error e => .error e
    | .ok es =>
      if es.isEmpty then update_course st cid p
      else .error (.validation es)

/-! ## Operation sequences and the referential invariant -/

/-- One API operation. -/
inductive Op where
  | createStd (p : StudentPayload)
  | createMsr (p : MasterRec)
  | createCsr (p : LessonRec)
  | updStd (stid : Nat) (p : StudentPatch)
  | updMsr (lid : Nat) (p : MasterPatch)
  | updCsr (cid : Nat) (p : LessonPatch)
  | delStd (stid : Nat)
  | delMsr (lid : Nat)
  | delCsr (cid : Nat)

/-- Run one operation; a failed request leaves the store unchanged. -/
def runOp (cities fields : List String) (st : Store) : Op → Store
  | .createStd p => match create_std cities fields st p with | .ok r => r.2 | .error _ => st
  | .createMsr p => match master cities fields st p with | .ok r => r.2 | .error _ => st
  | .createCsr p => match course st p with | .ok r => r.2 | .error _ => st
  | .updStd stid p => match update_std cities fields st stid p with | .ok r => r.2 | .error _ => st
  | .updMsr lid p => match upd_mas cities fields st lid p with | .ok r => r.2 | .error _ => st
  | .updCsr cid p => match upt_cour st cid p with | .ok r => r.2 | .error _ => st
  | .delStd stid => match del_std st stid with | .ok r => r.2 | .error _ => st
  | .delMsr lid => match del_msr st lid with | .ok r => r.2 | .error _ => st
  | .delCsr cid => match del_lsn st cid with | .ok r => r.2 | .error _ => st

def runOps (cities fields : List String) (ops : List Op) (st : Store) : Store :=
  ops.foldl (runOp cities fields) st

/-- A create-only operation. -/
inductive CreateOp where
  | std (p : StudentPayload)
  | msr (p : MasterRec)
  | csr (p : LessonRec)

def runCreate (cities fields : List String) (st : Store) : CreateOp → Store
  | .std p => match create_std cities fields st p with | .ok r => r.2 | .error _ => st
  | .msr p => match master cities fields st p with | .ok r => r.2 | .error _ => st
  | .csr p => match course st p with | .ok r => r.2 | .error _ => st

def runCreates (cities fields : List String) (ops : List CreateOp) (st : Store) : Store :=
  ops.foldl (runCreate cities fields) st

/-- The §3 referential invariant: for every persisted student, its enrolled course
identifiers reference existing lessons and its instructor identifiers
reference existing masters. -/
def studentInvariant (st : Store) : Bool :=
  st.students.all (fun kv =>
    kv.2.SCourseIDs.all (fun c => (lookupLesson st c).isSome) &&
    kv.2.LIDs.all (fun m => (lookupMaster st m).isSome))

/-! ## Field-indexed views of rows and patches (for frame properties) -/

/-- A Python attribute value as stored on a row. -/
inductive PyVal where
  | str (s : String)
  | int (n : Nat)
  | ints (l : List Nat)
deriving DecidableEq

inductive StudentField where
  | FName | LName | Father | Birth | IDS | BornCity | Address | PostalCode
  | CPhone | HPhone | Department | Major | Married | ID | SCourseIDs | LIDs
deriving DecidableEq

def StudentRow.fieldVal (r : StudentRow) : StudentField → PyVal
  | .FName => .str r.FName
  | .LName => .str r.LName
  | .Father => .str r.Father
  | .Birth => .str r.Birth
  | .IDS => .str r.IDS
  | .BornCity => .str r.BornCity
  | .Address => .str r.Address
  | .PostalCode => .int r.PostalCode
  | .CPhone => .str r.CPhone
  | .HPhone => .str r.HPhone
  | .Department => .str r.Department
  | .Major => .str r.Major
  | .Married => .str r.Married
  | .ID => .int r.ID
  | .SCourseIDs => .ints r.SCourseIDs
  | .LIDs => .ints r.LIDs

def StudentPatch.fieldVal (p : StudentPatch) : StudentField → Option (Option PyVal)
  | .FName => pvMap p.FName PyVal.str
  | .LName => pvMap p.LName PyVal.str
  | .Father => pvMap p.Father PyVal.str
  | .Birth => pvMap p.Birth PyVal.str
  | .IDS => pvMap p.IDS PyVal.str
  | .BornCity => pvMap p.BornCity PyVal.str
  | .Address => pvMap p.Address PyVal.str
  | .PostalCode => pvMap p.PostalCode PyVal.int
  | .CPhone => pvMap p.CPhone PyVal.str
  | .HPhone => pvMap p.HPhone PyVal.str
  | .Department => pvMap p.Department PyVal.str
  | .Major => pvMap p.Major PyVal.str
  | .Married => pvMap p.Married PyVal.str
  | .ID => pvMap p.ID PyVal.int
  | .SCourseIDs => pvAlways p.SCourseIDs PyVal.ints
  | .LIDs => pvAlways p.LIDs PyVal.ints

inductive LessonField where
  | CName | Department | Credit
deriving DecidableEq

def LessonRec.fieldVal (r : LessonRec) : LessonField → PyVal
  | .CName => .str r.CName
  | .Department => .str r.Department
  | .Credit => .str r.Credit

def LessonPatch.fieldVal (p : LessonPatch) : LessonField → Option (Option PyVal)
  | .CName => pvMap p.CName PyVal.str
  | .Department => pvMap p.Department PyVal.str
  | .Credit => pvMap p.Credit PyVal.str

/-! ## Concrete instances used by the closed theorems and witnesses -/

/-- A sample city reference list (the JSON data files are not in `src/`). -/
def exCities : List String := ["خرم"]

/-- A sample field-of-study reference list. -/
def exFields : List String := ["مهندسی"]

/-- A lesson payload that passes every course-creation rule. -/
def exLesson : LessonRec := ⟨12345, "ریاضی", "اقتصاد", "3"⟩

/-- A lesson payload with credit `"5"`. -/
def exLesson5 : LessonRec := ⟨12345, "ریاضی", "اقتصاد", "5"⟩

/-- A student payload that passes every creation rule against `exCities` /
`exFields` once lesson 12345 exists (its 8-digit national ID passes because
of the `validate_national_id` padding bug). -/
def exStudent : StudentPayload :=
  ⟨40211415001, "علی", "رضا", "حسن", "1380/01/01", "ب/12 123456", "خرم",
   "تهران", 1234567890, "09123456789", "06612345678", "اقتصاد", "مهندسی",
   "متاهل", 12345678, some [12345], some []⟩

/-- Create a lesson, create a student enrolled in it, delete the lesson. -/
def exOps : List Op := [.createCsr exLesson, .createStd exStudent, .delCsr 12345]

/-- A payload violating the Birth, Married and national-ID rules whose
`SCourseIDs` is an explicit `null`. -/
def exJunkStudent : StudentPayload :=
  ⟨1, "a", "b", "c", "x", "y", "z", "w", 5, "p", "q", "r", "s", "x", 5, none, some []⟩

/-- The same three violations with both lists present. -/
def exJunkStudent2 : StudentPayload :=
  ⟨1, "a", "b", "c", "x", "y", "z", "w", 5, "p", "q", "r", "s", "x", 5, some [], some []⟩

/-- A course payload violating the CName, Department and credit rules. -/
def exBadCourse : LessonRec := ⟨77, "x", "z", "9"⟩

/-- A course payload whose department is a strict fragment of a trusted
college name. -/
def exFragCourse : LessonRec := ⟨77, "x", "فنی", "9"⟩

/-- A persisted student row with identifier 1. -/
def exStudentRow : StudentRow :=
  ⟨1, "a", "b", "c", "d", "e", "f", "g", 2, "h", "i", "j", "k", "l", 3, [], []⟩

def exStoreStudent : Store := ⟨[(1, exStudentRow)], [], []⟩

/-- A create payload whose `STID` collides with `exStudentRow` and whose
`SCourseIDs` is an explicit `null`. -/
def exDupNull : StudentPayload :=
  ⟨1, "a", "b", "c", "x", "y", "z", "w", 5, "p", "q", "r", "s", "x", 5, none, some []⟩

/-- A colliding payload with both lists present. -/
def exDupListed : StudentPayload :=
  ⟨1, "a", "b", "c", "x", "y", "z", "w", 5, "p", "q", "r", "s", "x", 5, some [], some []⟩

/-- A persisted master row with identifier 2. -/
def exMasterRec : MasterRec :=
  ⟨2, "a", "b", 5, "c", "d", "e", "f", "g", "h", "i", "j", none⟩

def exStoreMaster : Store := ⟨[], [(2, exMasterRec)], []⟩

/-- A persisted lesson row with identifier 3. -/
def exLessonRow : LessonRec := ⟨3, "نام", "اقتصاد", "2"⟩

def exStoreLesson : Store := ⟨[], [], [(3, exLessonRow)]⟩

/-- A patch setting only `FName`, to an invalid (Latin) value. -/
def exBadPatch : StudentPatch :=
  ⟨some (some "a"), none, none, none, none, none, none, none, none, none,
   none, none, none, none, none, none⟩

/-- A patch setting only `FName`, to a valid Farsi value. -/
def exGoodPatch : StudentPatch :=
  ⟨some (some "علی"), none, none, none, none, none, none, none, none, none,
   none, none, none, none, none, none⟩

/-- The `{"CName": null}` update payload. -/
def exNullCNamePatch : LessonPatch := ⟨some none, none, none⟩

/-- An all-unset master patch. -/
def exMasterPatch0 : MasterPatch :=
  ⟨none, none, none, none, none, none, none, none, none, none, none, none⟩

/-! ## General lemmas about dicts and rule folds -/

theorem ruleFold_nil (init : List (String × String)) : ruleFold init [] = init := rfl

theorem ruleFold_cons (init : List (String × String)) (r : Bool × String × String)
    (rs : List (Bool × String × String)) :
    ruleFold init (r :: rs) = ruleFold (if r.1 then dictSet init r.2.1 r.2.2 else init) rs := rfl

theorem dictSet_ne_nil (d : List (String × String)) (k v : String) :
    dictSet d k v ≠ [] := by
  intro h
  unfold dictSet at h
  split at h
  · next hany =>
    rw [List.map_eq_nil_iff] at h
    subst h
    simp [List.any_nil] at hany
  · exact absurd h (by simp)

theorem dictKeys_map_set (d : List (String × String)) (k v : String) :
    dictKeys (d.map (fun kv => if kv.1 == k then (k, v) else kv)) = dictKeys d := by
  unfold dictKeys
  rw [List.map_map]
  apply List.map_congr_left
  intro kv _
  by_cases hb : kv.1 == k
  · have hk := eq_of_beq hb
    simp [Function.comp, hb, hk]
  · simp [Function.comp, hb]

theorem dictKeys_dictSet (d : List (String × String)) (k v : String) :
    dictKeys (dictSet d k v) =
      if d.any (fun kv => kv.1 == k) then dictKeys d else dictKeys d ++ [k] := by
  unfold dictSet
  split
  · rw [dictKeys_map_set]
  · unfold dictKeys
    rw [List.map_append]
    rfl

theorem dictKeys_dictSet_self (d : List (String × String)) (k v : String) :
    k ∈ dictKeys (dictSet d k v) := by
  rw [dictKeys_dictSet]
  split
  · next hany =>
    obtain ⟨kv, hmem, hk⟩ := List.any_eq_true.mp hany
    have hk2 := eq_of_beq hk
    exact hk2 ▸ List.mem_map.mpr ⟨kv, hmem, rfl⟩
  · exact List.mem_append_right _ (List.mem_singleton.mpr rfl)

theorem dictKeys_dictSet_mono (d : List (String × String)) (k v j : String)
    (h : j ∈ dictKeys d) : j ∈ dictKeys (dictSet d k v) := by
  rw [dictKeys_dictSet]
  split
  · exact h
  · exact List.mem_append_left _ h

theorem dictKeys_dictSet_not_mem (d : List (String × String)) (k v j : String)
    (hj : j ≠ k) (h : j ∉ dictKeys d) : j ∉ dictKeys (dictSet d k v) := by
  rw [dictKeys_dictSet]
  split
  · exact h
  · intro hc
    rcases List.mem_append.mp hc with h1 | h2
    · exact h h1
    · exact hj (List.mem_singleton.mp h2)

theorem mem_dictKeys_ruleFold_of_mem (rs : List (Bool × String × String))
    (init : List (String × String)) (j : String) (h : j ∈ dictKeys init) :
    j ∈ dictKeys (ruleFold init rs) := by
  induction rs generalizing init with
  | nil => exact h
  | cons r rs ih =>
    rw [ruleFold_cons]
    apply ih
    split
    · exact dictKeys_dictSet_mono _ _ _ _ h
    · exact h

theorem mem_dictKeys_ruleFold_of_rule (rs : List (Bool × String × String))
    (init : List (String × String)) (k m : String) (h : (true, k, m) ∈ rs) :
    k ∈ dictKeys (ruleFold init rs) := by
  induction rs generalizing init with
  | nil => cases h
  | cons r rs ih =>
    rcases List.mem_cons.mp h with h1 | h2
    · subst h1
      rw [ruleFold_cons]
      simp only [if_pos rfl]
      exact mem_dictKeys_ruleFold_of_mem rs _ k (dictKeys_dictSet_self init k m)
    · rw [ruleFold_cons]
      exact ih _ h2

theorem not_mem_dictKeys_ruleFold (rs : List (Bool × String × String))
    (init : List (String × String)) (j : String) (hinit : j ∉ dictKeys init)
    (hr : ∀ r ∈ rs, r.1 = true → r.2.1 ≠ j) : j ∉ dictKeys (ruleFold init rs) := by
  induction rs generalizing init with
  | nil => exact hinit
  | cons r rs ih =>
    rw [ruleFold_cons]
    apply ih
    · split
      · next hcond =>
        refine dictKeys_dictSet_not_mem _ _ _ _ ?_ hinit
        intro hc
        exact hr r (List.mem_cons_self r rs) hcond hc.symm
      · exact hinit
    · intro x hx
      exact hr x (List.mem_cons_of_mem r hx)

theorem ruleFold_eq_nil (rs : List (Bool × String × String))
    (init : List (String × String)) (h : ruleFold init rs = []) :
    init = [] ∧ ∀ r ∈ rs, r.1 = false := by
  induction rs generalizing init with
  | nil => exact ⟨h, by simp⟩
  | cons r rs ih =>
    rw [ruleFold_cons] at h
    obtain ⟨hstep, hall⟩ := ih _ h
    by_cases hr : r.1
    · rw [if_pos hr] at hstep
      exact absurd hstep (dictSet_ne_nil _ _ _)
    · rw [if_neg hr] at hstep
      refine ⟨hstep, ?_⟩
      intro x hx
      rcases List.mem_cons.mp hx with h1 | h2
      · subst h1; simpa using hr
      · exact hall x h2

theorem ne_nil_of_mem_dictKeys (d : List (String × String)) (j : String)
    (h : j ∈ dictKeys d) : d ≠ [] := by
  intro hd; subst hd; simp [dictKeys] at h

theorem isEmpty_false_of_mem_dictKeys (d : List (String × String)) (j : String)
    (h : j ∈ dictKeys d) : d.isEmpty = false := by
  cases hd : d with
  | nil => exact absurd hd (ne_nil_of_mem_dictKeys d j h)
  | cons a l => rfl

/-! ## Store and invariant lemmas -/

theorem find?_append_isSome {α : Type} (l1 l2 : List α) (p : α → Bool)
    (h : (l1.find? p).isSome = true) : ((l1 ++ l2).find? p).isSome = true := by
  induction l1 with
  | nil => simp [List.find?] at h
  | cons a l1 ih =>
    rw [List.cons_append]
    cases hp : p a with
    | true => simp [List.find?, hp]
    | false =>
      rw [List.find?_cons_of_neg _ (by simp [hp])] at h ⊢
      exact ih h

theorem isSome_map {α β : Type} (o : Option α) (f : α → β) :
    (o.map f).isSome = o.isSome := by
  cases o <;> rfl

theorem isSome_of_isNone_false {α : Type} (o : Option α) (h : o.isNone = false) :
    o.isSome = true := by
  cases o
  · simp at h
  · rfl

theorem studentInvariant_mono (st st2 : Store)
    (hs : st2.students = st.students)
    (hl : ∀ c, (lookupLesson st c).isSome = true → (lookupLesson st2 c).isSome = true)
    (hm : ∀ m, (lookupMaster st m).isSome = true → (lookupMaster st2 m).isSome = true)
    (h : studentInvariant st = true) : studentInvariant st2 = true := by
  unfold studentInvariant at h ⊢
  rw [hs]
  rw [List.all_eq_true] at h ⊢
  intro kv hkv
  obtain h1 := h kv hkv
  rw [Bool.and_eq_true] at h1 ⊢
  obtain ⟨hc, hmm⟩ := h1
  constructor
  · rw [List.all_eq_true] at hc ⊢
    intro c hcmem
    exact hl c (hc c hcmem)
  · rw [List.all_eq_true] at hmm ⊢
    intro m hmmem
    exact hm m (hmm m hmmem)

theorem lookupLesson_append (st : Store) (x : Nat × LessonRec) (c : Nat)
    (h : (lookupLesson st c).isSome = true) :
    (lookupLesson { st with lessons := st.lessons ++ [x] } c).isSome = true := by
  unfold lookupLesson at h ⊢
  rw [isSome_map] at h ⊢
  exact find?_append_isSome _ _ _ h

theorem lookupMaster_append (st : Store) (x : Nat × MasterRec) (m : Nat)
    (h : (lookupMaster st m).isSome = true) :
    (lookupMaster { st with masters := st.masters ++ [x] } m).isSome = true := by
  unfold lookupMaster at h ⊢
  rw [isSome_map] at h ⊢
  exact find?_append_isSome _ _ _ h

theorem invariant_createCsr (st : Store) (p : LessonRec)
    (h : studentInvariant st = true) :
    studentInvariant (match course st p with | .ok r => r.2 | .error _ => st) = true := by
  cases hres : course st p with
  | error e => exact h
  | ok r =>
    unfold course at hres
    split at hres
    · cases hres
    · dsimp only at hres
      split at hres
      · cases hres
        dsimp only
        refine studentInvariant_mono st _ rfl ?_ ?_ h
        · intro c hc; exact lookupLesson_append st _ c hc
        · intro m hm; exact hm
      · cases hres

theorem invariant_createMsr (cities fields : List String) (st : Store) (p : MasterRec)
    (h : studentInvariant st = true) :
    studentInvariant
      (match master cities fields st p with | .ok r => r.2 | .error _ => st) = true := by
  cases hres : master cities fields st p with
  | error e => exact h
  | ok r =>
    unfold master at hres
    split at hres
    · cases hres
    · dsimp only at hres
      split at hres
      · cases hres
        dsimp only
        refine studentInvariant_mono st _ rfl ?_ ?_ h
        · intro c hc; exact hc
        · intro m hm; exact lookupMaster_append st _ m hm
      · cases hres

theorem invariant_createStd (cities fields : List String) (st : Store) (p : StudentPayload)
    (h : studentInvariant st = true) :
    studentInvariant
      (match create_std cities fields st p with | .ok r => r.2 | .error _ => st) = true := by
  cases hres : create_std cities fields st p with
  | error e => exact h
  | ok r =>
    unfold create_std at hres
    split at hres
    · cases hres
    · next cs hcs =>
      split at hres
      · cases hres
      · next ls hls =>
        dsimp only at hres
        split at hres
        · cases hres
        · split at hres
          · next hempty =>
            cases hres
            dsimp only
            have hnil : ruleFold (ruleFold [] (fkStudentRules st cs ls))
                (studentFieldRules cities fields p) = [] := by
              rwa [List.isEmpty_iff] at hempty
            have he0 := (ruleFold_eq_nil _ _ hnil).1
            have hall := (ruleFold_eq_nil _ _ he0).2
            unfold studentInvariant
            rw [List.all_eq_true]
            intro kv hkv
            rcases List.mem_append.mp hkv with hold | hnew
            · have h2 := (List.all_eq_true.mp h) kv hold
              exact h2
            · have hkv2 : kv = (p.STID, studentRowOf p cs ls) := by
                rcases List.mem_singleton.mp hnew with rfl
                rfl
              subst hkv2
              rw [Bool.and_eq_true]
              constructor
              · rw [List.all_eq_true]
                intro c hc
                have hr : ((lookupLesson st c).isNone, "Lcourse",
                    "Lesson with ID " ++ toString c ++ " not found") ∈
                    fkStudentRules st cs ls := by
                  unfold fkStudentRules
                  exact List.mem_append_left _ (List.mem_map_of_mem _ hc)
                have hfalse := hall _ hr
                exact isSome_of_isNone_false _ hfalse
              · rw [List.all_eq_true]
                intro m hm
                have hr : ((lookupMaster st m).isNone, "LID",
                    "Master with ID " ++ toString m ++ " not found") ∈
                    fkStudentRules st cs ls := by
                  unfold fkStudentRules
                  exact List.mem_append_right _ (List.mem_map_of_mem _ hm)
                have hfalse := hall _ hr
                exact isSome_of_isNone_false _ hfalse
          · cases hres

theorem invariant_runCreate (cities fields : List String) (st : Store) (op : CreateOp)
    (h : studentInvariant st = true) :
    studentInvariant (runCreate cities fields st op) = true := by
  cases op with
  | std p => exact invariant_createStd cities fields st p h
  | msr p => exact invariant_createMsr cities fields st p h
  | csr p => exact invariant_createCsr st p h

theorem invariant_runCreates (cities fields : List String) (ops : List CreateOp)
    (st : Store) (h : studentInvariant st = true) :
    studentInvariant (runCreates cities fields ops st) = true := by
  induction ops generalizing st with
  | nil => exact h
  | cons op ops ih =>
    exact ih _ (invariant_runCreate cities fields st op h)

/-! ## Validator lemmas -/

theorem latin_not_farsiAllowed (c : Char) (h : isLatinLetter c = true) :
    farsiAllowed c = false := by
  rcases Bool.eq_false_or_eq_true (farsiAllowed c) with ht | hf
  · exfalso
    unfold farsiAllowed isArabicBlock isPySpace isDigit19 at ht
    unfold isLatinLetter at h
    simp only [Bool.or_eq_true, Bool.and_eq_true, decide_eq_true_eq, beq_iff_eq] at h ht
    omega
  · exact hf

theorem check_farsi_name_false_of_bad (s : String) (c : Char) (hc : c ∈ s.data)
    (hf : farsiAllowed c = false) : check_farsi_name s = false := by
  unfold check_farsi_name
  have hall : s.data.all farsiAllowed = false := by
    rcases Bool.eq_false_or_eq_true (s.data.all farsiAllowed) with h | h
    · exfalso
      have := (List.all_eq_true.mp h) c hc
      rw [hf] at this
      cases this
    · exact h
  rw [hall]
  simp

theorem college_trust_aux_cases (n : String) (l : List String) :
    college_trust_aux n l = some true ∨ college_trust_aux n l = none := by
  induction l with
  | nil => right; rfl
  | cons a l ih =>
    unfold college_trust_aux
    split
    · left; rfl
    · exact ih

theorem college_trust_aux_of_substr (n : String) (l : List String) (c : String)
    (hc : c ∈ l) (hsub : pyIn n c = true) : college_trust_aux n l = some true := by
  induction l with
  | nil => cases hc
  | cons a l ih =>
    unfold college_trust_aux
    rcases List.mem_cons.mp hc with h1 | h2
    · subst h1
      rw [hsub]
      simp
    · split
      · rfl
      · exact ih h2

theorem is_center_cases (ob : List String) (n : String) :
    is_center ob n = some true ∨ is_center ob n = none := by
  induction ob with
  | nil => right; rfl
  | cons a l ih =>
    unfold is_center
    split
    · left; rfl
    · exact ih

theorem is_cities_cases (ob : List String) (n : String) :
    is_cities ob n = some true ∨ is_cities ob n = none := by
  induction ob with
  | nil => right; rfl
  | cons a l ih =>
    unfold is_cities
    split
    · left; rfl
    · exact ih

theorem trust_cases (ob : List String) (n : String) :
    trust ob n = some true ∨ trust ob n = none := by
  induction ob with
  | nil => right; rfl
  | cons a l ih =>
    unfold trust
    split
    · left; rfl
    · exact ih

/-! ## Patch-application lemmas -/

theorem pvMap_keep {α β : Type} (o : Option (Option α)) (g : α → β) (d : α)
    (h : pvMap o g = none ∨ pvMap o g = some none) : pvApply o d = d := by
  rcases o with _ | (_ | v)
  · rfl
  · rfl
  · rcases h with h | h <;> simp [pvMap] at h

theorem pvMap_set {α β : Type} (o : Option (Option α)) (g : α → β) (d : α) (w : β)
    (h : pvMap o g = some (some w)) : g (pvApply o d) = w := by
  rcases o with _ | (_ | v) <;> simp [pvMap] at h
  simp [pvApply, h]

theorem pvAlways_keep {α β : Type} (o : Option α) (g : α → β) (d : α)
    (h : pvAlways o g = none ∨ pvAlways o g = some none) : ovApply o d = d := by
  rcases o with _ | v
  · rfl
  · rcases h with h | h <;> simp [pvAlways] at h

theorem pvAlways_set {α β : Type} (o : Option α) (g : α → β) (d : α) (w : β)
    (h : pvAlways o g = some (some w)) : g (ovApply o d) = w := by
  rcases o with _ | v <;> simp [pvAlways] at h
  simp [ovApply, h]

theorem studentPatchKeys_isEmpty_false (p : StudentPatch) :
    (studentPatchKeys p).isEmpty = false := by
  have hne : studentPatchKeys p ≠ [] := by
    unfold studentPatchKeys
    intro hc
    rw [List.append_eq_nil] at hc
    cases hc.2
  cases hk : studentPatchKeys p with
  | nil => exact absurd hk hne
  | cons a l => rfl

end SMS

namespace SMS

/-! # Claim theorems -/

/-- C1 (code_bug): the claim says an 8- or 9-digit input is left-padded with
zeros and checked against the weighted mod-11 checksum.  Because of the
mis-parenthesized padding `"0" * (10 - len(str(n)) + n)`, the code instead
checksums a string of zeros and returns `True` for *every* 8- or 9-digit
input: `10000001` is accepted although the claimed rule rejects it
(`spec_validate_national_id`).  On 10-digit inputs and on too-short or
too-long inputs the code agrees with the claim. -/
theorem C1_validate_national_id_padding_bug :
    validate_national_id 10000001 = true ∧
    spec_validate_national_id 10000001 = false ∧
    validate_national_id 1234567891 = true ∧
    spec_validate_national_id 1234567891 = true ∧
    validate_national_id 1234567 = false ∧
    validate_national_id 12345678901 = false :=
  ⟨by decide, by decide, by decide, by decide, by decide, by decide⟩

/-- C2 counterexample: `college_trust` on an invalid value falls off the end
of its loop and returns Python `None`, not the boolean `False` the claim
asserts every validator returns. -/
theorem C2_college_trust_returns_none : college_trust "z" = none := by decide

/-- C2 (amended): every validator is a deterministic total function that is
truthy exactly on valid input, but the four reference-set validators
(`is_center`, `is_cities`, `college_trust`, `trust`) return `True` or `None`
(never the boolean `False`), while `check_shamsi`, `check_farsi_name` and
`validate_national_id` do return booleans. -/
theorem C2_validators_never_return_false :
    (∀ n, college_trust n = some true ∨ college_trust n = none) ∧
    (∀ ob n, is_center ob n = some true ∨ is_center ob n = none) ∧
    (∀ ob n, is_cities ob n = some true ∨ is_cities ob n = none) ∧
    (∀ ob n, trust ob n = some true ∨ trust ob n = none) ∧
    (∀ s, check_farsi_name s = true ∨ check_farsi_name s = false) ∧
    (∀ d, check_shamsi d = true ∨ check_shamsi d = false) ∧
    (∀ n, validate_national_id n = true ∨ validate_national_id n = false) := by
  refine ⟨?_, ?_, ?_, ?_, ?_, ?_, ?_⟩
  · intro n; exact college_trust_aux_cases n lst_college
  · intro ob n; exact is_center_cases ob n
  · intro ob n; exact is_cities_cases ob n
  · intro ob n; exact trust_cases ob n
  · intro s; exact Bool.eq_false_or_eq_true _
  · intro d; exact Bool.eq_false_or_eq_true _
  · intro n; exact Bool.eq_false_or_eq_true _

/-- C3: `check_farsi_name` returns false for every string containing a Latin
letter or any character outside the allowed class (Arabic/Persian block,
digits 1-9, whitespace), returns true for every non-empty string of
Arabic-block letters, digits 1-9 and spaces, and rejects the empty string. -/
theorem C3_check_farsi_name_characterization :
    (∀ (s : String), ∀ c ∈ s.data, isLatinLetter c = true → check_farsi_name s = false) ∧
    (∀ (s : String), ∀ c ∈ s.data, farsiAllowed c = false → check_farsi_name s = false) ∧
    (∀ (s : String), s.data ≠ [] →
      (∀ c ∈ s.data, isArabicBlock c = true ∨ isDigit19 c = true ∨ c = ' ') →
      check_farsi_name s = true) ∧
    check_farsi_name "" = false := by
  refine ⟨?_, ?_, ?_, by decide⟩
  · intro s c hc hl
    exact check_farsi_name_false_of_bad s c hc (latin_not_farsiAllowed c hl)
  · intro s c hc hf
    exact check_farsi_name_false_of_bad s c hc hf
  · intro s hne hall
    unfold check_farsi_name
    have h1 : s.data.isEmpty = false := by
      cases hd : s.data with
      | nil => exact absurd hd hne
      | cons a l => rfl
    have h2 : s.data.all farsiAllowed = true := by
      rw [List.all_eq_true]
      intro c hc
      rcases hall c hc with h | h | h
      · unfold farsiAllowed; rw [h]; rfl
      · unfold farsiAllowed; rw [h]; simp
      · subst h; decide
    rw [h1, h2]
    rfl

/-- C3 witness: the characterization applied at concrete strings. -/
theorem C3_check_farsi_name_characterization_witness :
    check_farsi_name "abc" = false ∧ check_farsi_name "علی 1" = true ∧
    check_farsi_name "" = false :=
  ⟨C3_check_farsi_name_characterization.1 "abc" 'a' (by decide) (by decide),
   C3_check_farsi_name_characterization.2.2.1 "علی 1" (by decide) (by decide),
   C3_check_farsi_name_characterization.2.2.2⟩

/-- C9 (code_bug): the credit rule is `re.match(r"[1-5]", Credit)` — it
accepts `"5"` (and any string whose first character is a digit 1-5, such as
`"49"`), although the error message of the rule itself and the spec say the credit
count must be between 1 and 4; course creation therefore succeeds with
credit `"5"`. -/
theorem C9_credit_rule_accepts_five :
    course emptyStore exLesson5 =
      .ok (exLesson5, ⟨[], [], [(12345, exLesson5)]⟩) ∧
    matchCredit "5" = true ∧ spec_credit_in_range "5" = false ∧
    matchCredit "49" = true ∧ spec_credit_in_range "49" = false ∧
    matchCredit "0" = false :=
  ⟨by decide, by decide, by decide, by decide, by decide, by decide⟩

/-- C10: `college_trust` tests whether the candidate occurs inside a trusted
name (`n in lst`), so every contiguous substring of a trusted department
name is accepted — the empty string included — and such a fragment passes
the Department rule of course creation (no "Department" error is recorded). -/
theorem C10_college_trust_substring_semantics :
    (∀ n c, c ∈ lst_college → pyIn n c = true → college_trust n = some true) ∧
    college_trust "" = some true ∧
    (∀ (p : LessonRec) (c : String), c ∈ lst_college → pyIn p.Department c = true →
      "Department" ∉ dictKeys (ruleFold [] (courseFieldRules p))) := by
  refine ⟨?_, by decide, ?_⟩
  · intro n c hc hsub
    exact college_trust_aux_of_substr n lst_college c hc hsub
  · intro p c hc hsub
    have hct : college_trust p.Department = some true :=
      college_trust_aux_of_substr _ _ c hc hsub
    apply not_mem_dictKeys_ruleFold
    · simp [dictKeys]
    · intro r hr htrue
      simp only [courseFieldRules, List.mem_cons, List.not_mem_nil, or_false] at hr
      rcases hr with rfl | rfl | rfl | rfl
      · simp
      · simp
      · rw [hct] at htrue
        simp [pyFalsy] at htrue
      · simp

/-- C10 witness: the substring semantics applied at the fragment `فنی` of
the trusted name `فنی و مهندسی`. -/
theorem C10_college_trust_substring_semantics_witness :
    college_trust "فنی" = some true ∧
    "Department" ∉ dictKeys (ruleFold [] (courseFieldRules exFragCourse)) :=
  ⟨C10_college_trust_substring_semantics.1 "فنی" "فنی و مهندسی" (by decide) (by decide),
   C10_college_trust_substring_semantics.2.2 exFragCourse "فنی و مهندسی"
     (by decide) (by decide)⟩

end SMS

namespace SMS

/-- C4 counterexample: a payload with a fresh identifier violating three
field rules on three distinct fields (Birth, Married, national ID) whose
`SCourseIDs` is an explicit `null` — accepted by the schema — makes
`create_std` raise `TypeError` at the enrollment loop instead of returning
the aggregate validation error the claim requires. -/
theorem C4_null_list_short_circuits_aggregate :
    check_shamsi exJunkStudent.Birth = false ∧
    (exJunkStudent.Married == "متاهل" || exJunkStudent.Married == "مجرد") = false ∧
    validate_national_id exJunkStudent.ID = false ∧
    lookupStudent emptyStore exJunkStudent.STID = none ∧
    create_std [] [] emptyStore exJunkStudent = .error .typeError :=
  ⟨by decide, by decide, by decide, by decide, by decide⟩

/-- C4 (amended): provided the enrollment and instructor lists of the
student payload are present (not `null`), a create whose identifier is not persisted
and which violates three field rules on three distinct fields fails with one
aggregate `{"detail": "Validation error", "errors": ...}` object carrying
all three named errors at once; for course creation this holds for every
payload. -/
theorem C4_aggregate_error_reporting :
    (∀ st (p : LessonRec), lookupLesson st p.CID = none →
      (p.CName.length > 25 || !check_farsi_name p.CName) = true →
      pyFalsy (college_trust p.Department) = true →
      matchCredit p.Credit = false →
      ∃ es, course st p = .error (.validation es) ∧
        "CName" ∈ dictKeys es ∧ "Department" ∈ dictKeys es ∧ "credit" ∈ dictKeys es) ∧
    (∀ cities fields st (p : StudentPayload) cs ls,
      p.SCourseIDs = some cs → p.LIDs = some ls →
      lookupStudent st p.STID = none →
      check_shamsi p.Birth = false →
      (p.Married == "متاهل" || p.Married == "مجرد") = false →
      validate_national_id p.ID = false →
      ∃ es, create_std cities fields st p = .error (.validation es) ∧
        "Birth" ∈ dictKeys es ∧ "marital" ∈ dictKeys es ∧ "code_melli" ∈ dictKeys es) := by
  constructor
  · intro st p hfresh hcname hdept hcredit
    have hsome : (lookupLesson st p.CID).isSome = false := by rw [hfresh]; rfl
    have h1 : "CName" ∈ dictKeys (ruleFold [] (courseFieldRules p)) := by
      apply mem_dictKeys_ruleFold_of_rule _ _ _
        "The maximum length of the string should be 25 and all characters should be Farsi"
      have hmem : (p.CName.length > 25 || !check_farsi_name p.CName, "CName",
          "The maximum length of the string should be 25 and all characters should be Farsi")
          ∈ courseFieldRules p := by simp [courseFieldRules]
      rwa [hcname] at hmem
    have h2 : "Department" ∈ dictKeys (ruleFold [] (courseFieldRules p)) := by
      apply mem_dictKeys_ruleFold_of_rule _ _ _ "name college is wrong"
      have hmem : (pyFalsy (college_trust p.Department), "Department",
          "name college is wrong") ∈ courseFieldRules p := by simp [courseFieldRules]
      rwa [hdept] at hmem
    have h3 : "credit" ∈ dictKeys (ruleFold [] (courseFieldRules p)) := by
      apply mem_dictKeys_ruleFold_of_rule _ _ _ "The number of units must be between 1 and 4"
      have hmem : (!matchCredit p.Credit, "credit",
          "The number of units must be between 1 and 4") ∈ courseFieldRules p := by
        simp [courseFieldRules]
      rw [hcredit] at hmem
      exact hmem
    have hne := isEmpty_false_of_mem_dictKeys _ _ h1
    refine ⟨ruleFold [] (courseFieldRules p), ?_, h1, h2, h3⟩
    unfold course
    rw [hsome]
    dsimp only
    rw [hne]
    rfl
  · intro cities fields st p cs ls hcs hls hfresh hbirth hmarried hid
    have hsome : (lookupStudent st p.STID).isSome = false := by rw [hfresh]; rfl
    have h1 : "Birth" ∈ dictKeys (ruleFold (ruleFold [] (fkStudentRules st cs ls))
        (studentFieldRules cities fields p)) := by
      apply mem_dictKeys_ruleFold_of_rule _ _ _ "This date is incorrect"
      have hmem : (!check_shamsi p.Birth, "Birth", "This date is incorrect")
          ∈ studentFieldRules cities fields p := by simp [studentFieldRules]
      rw [hbirth] at hmem
      exact hmem
    have h2 : "marital" ∈ dictKeys (ruleFold (ruleFold [] (fkStudentRules st cs ls))
        (studentFieldRules cities fields p)) := by
      apply mem_dictKeys_ruleFold_of_rule _ _ _ "is marital status is wrong value"
      have hmem : (!(p.Married == "متاهل" || p.Married == "مجرد"), "marital",
          "is marital status is wrong value") ∈ studentFieldRules cities fields p := by
        simp [studentFieldRules]
      rw [hmarried] at hmem
      exact hmem
    have h3 : "code_melli" ∈ dictKeys (ruleFold (ruleFold [] (fkStudentRules st cs ls))
        (studentFieldRules cities fields p)) := by
      apply mem_dictKeys_ruleFold_of_rule _ _ _ "code melli is incorrect"
      have hmem : (!validate_national_id p.ID, "code_melli", "code melli is incorrect")
          ∈ studentFieldRules cities fields p := by simp [studentFieldRules]
      rw [hid] at hmem
      exact hmem
    have hne := isEmpty_false_of_mem_dictKeys _ _ h1
    refine ⟨ruleFold (ruleFold [] (fkStudentRules st cs ls))
      (studentFieldRules cities fields p), ?_, h1, h2, h3⟩
    unfold create_std
    rw [hcs, hls]
    try dsimp only
    rw [hsome]
    try dsimp only
    rw [hne]
    rfl

/-- C4 witness: the aggregate reporting applied at a concrete course payload
and a concrete student payload each violating three rules. -/
theorem C4_aggregate_error_reporting_witness :
    (∃ es, course emptyStore exBadCourse = .error (.validation es) ∧
      "CName" ∈ dictKeys es ∧ "Department" ∈ dictKeys es ∧ "credit" ∈ dictKeys es) ∧
    (∃ es, create_std [] [] emptyStore exJunkStudent2 = .error (.validation es) ∧
      "Birth" ∈ dictKeys es ∧ "marital" ∈ dictKeys es ∧ "code_melli" ∈ dictKeys es) :=
  ⟨C4_aggregate_error_reporting.1 emptyStore exBadCourse (by decide) (by decide)
     (by decide) (by decide),
   C4_aggregate_error_reporting.2 [] [] emptyStore exJunkStudent2 [] [] rfl rfl
     (by decide) (by decide) (by decide) (by decide)⟩

/-- C5 counterexample: a create request whose identifier already exists but
whose `SCourseIDs` is an explicit `null` crashes with `TypeError` at the
enrollment loop — before the duplicate check — instead of failing with the
dedicated duplicate-identifier error. -/
theorem C5_null_list_preempts_duplicate :
    lookupStudent exStoreStudent 1 = some exStudentRow ∧
    exDupNull.STID = 1 ∧
    create_std [] [] exStoreStudent exDupNull = .error .typeError :=
  ⟨by decide, by decide, by decide⟩

/-- C5 (amended): when the list fields of the student payload are present, a create on
an existing identifier fails with the dedicated duplicate error reported
alone, whatever field errors the payload would also produce (for student
creation the two cross-entity existence loops run first but their
accumulated errors are discarded by the raise); master and course creation
check the duplicate before any rule. -/
theorem C5_duplicate_identifier_reported_alone :
    (∀ cities fields st (p : StudentPayload) cs ls,
      p.SCourseIDs = some cs → p.LIDs = some ls →
      (lookupStudent st p.STID).isSome = true →
      create_std cities fields st p =
        .error (.duplicate "studentID already exists ,studentID must be unique")) ∧
    (∀ cities fields st (p : MasterRec), (lookupMaster st p.LID).isSome = true →
      master cities fields st p =
        .error (.duplicate ("This teacher exists with the number " ++ toString p.LID))) ∧
    (∀ st (p : LessonRec), (lookupLesson st p.CID).isSome = true →
      course st p = .error (.duplicate "courseID already exists ,courseID must be unique")) := by
  refine ⟨?_, ?_, ?_⟩
  · intro cities fields st p cs ls hcs hls hdup
    unfold create_std
    rw [hcs, hls]
    dsimp only
    rw [hdup]
    rfl
  · intro cities fields st p hdup
    unfold master
    rw [hdup]
    rfl
  · intro st p hdup
    unfold course
    rw [hdup]
    rfl

/-- C5 witness: the duplicate preemption applied at concrete stores holding
the colliding identifiers. -/
theorem C5_duplicate_identifier_reported_alone_witness :
    create_std [] [] exStoreStudent exDupListed =
      .error (.duplicate "studentID already exists ,studentID must be unique") ∧
    master [] [] exStoreMaster exMasterRec =
      .error (.duplicate ("This teacher exists with the number " ++ toString exMasterRec.LID)) ∧
    course exStoreLesson exLessonRow =
      .error (.duplicate "courseID already exists ,courseID must be unique") :=
  ⟨C5_duplicate_identifier_reported_alone.1 [] [] exStoreStudent exDupListed [] []
     rfl rfl (by decide),
   C5_duplicate_identifier_reported_alone.2.1 [] [] exStoreMaster exMasterRec (by decide),
   C5_duplicate_identifier_reported_alone.2.2 exStoreLesson exLessonRow (by decide)⟩

end SMS

namespace SMS

/-- C6: `crud.update_student` and `crud.update_course` on an existing row
change exactly the fields present in the payload with non-null values: a
field absent from the payload and a field explicitly set to null both keep
the stored value (nulls are dropped before applying), so `{"CName": null}`
leaves the stored course name unchanged — explicit null can never clear a
field. -/
theorem C6_partial_update_frame :
    (∀ st stid row (p : StudentPatch) (f : StudentField),
      lookupStudent st stid = some row →
      p.fieldVal f = none ∨ p.fieldVal f = some none →
      ∃ row2 st2, update_student st stid p = .ok (row2, st2) ∧
        row2.fieldVal f = row.fieldVal f) ∧
    (∀ st stid row (p : StudentPatch) (f : StudentField) (v : PyVal),
      lookupStudent st stid = some row →
      p.fieldVal f = some (some v) →
      ∃ row2 st2, update_student st stid p = .ok (row2, st2) ∧ row2.fieldVal f = v) ∧
    (∀ st cid row, lookupLesson st cid = some row →
      ∃ row2 st2, update_course st cid exNullCNamePatch = .ok (row2, st2) ∧
        row2.CName = row.CName) := by
  refine ⟨?_, ?_, ?_⟩
  · intro st stid row p f hlook h
    refine ⟨applyStudentPatch row p, replaceStudent st stid (applyStudentPatch row p), ?_, ?_⟩
    · unfold update_student
      rw [hlook]
    · cases f <;>
        simp only [StudentPatch.fieldVal] at h <;>
        simp only [StudentRow.fieldVal, applyStudentPatch] <;>
        first
          | exact congrArg PyVal.str (pvMap_keep _ _ _ h)
          | exact congrArg PyVal.int (pvMap_keep _ _ _ h)
          | exact congrArg PyVal.ints (pvAlways_keep _ _ _ h)
  · intro st stid row p f v hlook h
    refine ⟨applyStudentPatch row p, replaceStudent st stid (applyStudentPatch row p), ?_, ?_⟩
    · unfold update_student
      rw [hlook]
    · cases f <;>
        simp only [StudentPatch.fieldVal] at h <;>
        simp only [StudentRow.fieldVal, applyStudentPatch] <;>
        first
          | exact pvMap_set _ _ _ _ h
          | exact pvAlways_set _ _ _ _ h
  · intro st cid row hlook
    refine ⟨applyLessonPatch row exNullCNamePatch,
      replaceLesson st cid (applyLessonPatch row exNullCNamePatch), ?_, ?_⟩
    · unfold update_course
      rw [hlook]
    · rfl

/-- C6 witness: the frame property applied at a concrete store — an absent
field and a null `CName` survive, a provided field is set. -/
theorem C6_partial_update_frame_witness :
    (∃ row2 st2, update_student exStoreStudent 1 exGoodPatch = .ok (row2, st2) ∧
      row2.fieldVal .LName = exStudentRow.fieldVal .LName) ∧
    (∃ row2 st2, update_student exStoreStudent 1 exGoodPatch = .ok (row2, st2) ∧
      row2.fieldVal .FName = .str "علی") ∧
    (∃ row2 st2, update_course exStoreLesson 3 exNullCNamePatch = .ok (row2, st2) ∧
      row2.CName = exLessonRow.CName) :=
  ⟨C6_partial_update_frame.1 exStoreStudent 1 exStudentRow exGoodPatch .LName
     (by decide) (Or.inl rfl),
   C6_partial_update_frame.2.1 exStoreStudent 1 exStudentRow exGoodPatch .FName
     (.str "علی") (by decide) rfl,
   C6_partial_update_frame.2.2 exStoreLesson 3 exLessonRow (by decide)⟩

/-- C7 counterexample: updating a *non-existent* student with an invalid
field value fails with a validation error, not the claimed not-found error —
`update_std` validates the supplied fields before any existence check. -/
theorem C7_student_update_validates_before_existence :
    lookupStudent emptyStore 1 = none ∧
    update_std [] [] emptyStore 1 exBadPatch =
      .error (.validation
        [("FName", "All letters must be Farsi or Do not contain special symbols or numbers")]) :=
  ⟨by decide, by decide⟩

/-- C7 (amended): read and delete on an absent identifier always fail with
the not-found error, as do master and course updates (their handlers check
existence first); a student update reports not-found only when the supplied
fields pass validation (field validation runs before the existence check,
which happens inside `crud.update_student`). -/
theorem C7_not_found_on_absent_identifier :
    (∀ st stid, lookupStudent st stid = none →
      get_student st stid = .error (.notFound "student is not found")) ∧
    (∀ st lid, lookupMaster st lid = none →
      get_msr st lid = .error (.notFound "master is not found")) ∧
    (∀ st cid, lookupLesson st cid = none →
      get_lsn st cid = .error (.notFound "lesson is not found")) ∧
    (∀ st stid, lookupStudent st stid = none →
      del_std st stid = .error (.notFound "student is not found")) ∧
    (∀ st lid, lookupMaster st lid = none →
      del_msr st lid = .error (.notFound "master is not found")) ∧
    (∀ st cid, lookupLesson st cid = none →
      del_lsn st cid = .error (.notFound "lesson is not found")) ∧
    (∀ cities fields st lid (p : MasterPatch), lookupMaster st lid = none →
      upd_mas cities fields st lid p = .error (.notFound "There is no such master")) ∧
    (∀ st cid (p : LessonPatch), lookupLesson st cid = none →
      upt_cour st cid p = .error (.notFound "CID is not found")) ∧
    (∀ cities fields st stid (p : StudentPatch), lookupStudent st stid = none →
      updFold (studentUpdRules cities fields p) [] = .ok [] →
      update_std cities fields st stid p = .error (.notFound "student is not found")) := by
  refine ⟨?_, ?_, ?_, ?_, ?_, ?_, ?_, ?_, ?_⟩
  · intro st stid h
    unfold get_student
    rw [h]
  · intro st lid h
    unfold get_msr
    rw [h]
  · intro st cid h
    unfold get_lsn
    rw [h]
  · intro st stid h
    unfold del_std
    rw [h]
  · intro st lid h
    unfold del_msr
    rw [h]
  · intro st cid h
    unfold del_lsn
    rw [h]
  · intro cities fields st lid p h
    unfold upd_mas
    rw [h]
  · intro st cid p h
    unfold upt_cour
    rw [h]
  · intro cities fields st stid p h hupd
    unfold update_std
    rw [studentPatchKeys_isEmpty_false p]
    try dsimp only
    rw [hupd]
    try dsimp only
    unfold update_student
    rw [h]
    rfl

/-- C7 witness: the not-found behaviour applied at the empty store. -/
theorem C7_not_found_on_absent_identifier_witness :
    get_student emptyStore 7 = .error (.notFound "student is not found") ∧
    upd_mas [] [] emptyStore 7 exMasterPatch0 = .error (.notFound "There is no such master") ∧
    upt_cour emptyStore 7 emptyLessonPatch = .error (.notFound "CID is not found") ∧
    update_std [] [] emptyStore 7 exGoodPatch = .error (.notFound "student is not found") :=
  ⟨C7_not_found_on_absent_identifier.1 emptyStore 7 rfl,
   C7_not_found_on_absent_identifier.2.2.2.2.2.2.1 [] [] emptyStore 7 exMasterPatch0 rfl,
   C7_not_found_on_absent_identifier.2.2.2.2.2.2.2.1 emptyStore 7 emptyLessonPatch rfl,
   C7_not_found_on_absent_identifier.2.2.2.2.2.2.2.2 [] [] emptyStore 7 exGoodPatch rfl
     (by decide)⟩

/-- C8 counterexample: create a lesson, create a student enrolled in it,
then delete the lesson — no cascade or re-check runs, and the persisted
student now references a non-existent lesson, violating the invariant. -/
theorem C8_delete_breaks_referential_invariant :
    studentInvariant (runOps exCities exFields exOps emptyStore) = false := by decide

/-- C8 (amended): the referential invariant does hold after every sequence
of *create* operations (creation checks every referenced lesson and master);
it is not maintained by lesson or master deletion (no cascade) nor by
student updates (which re-check no references). -/
theorem C8_invariant_under_creates (cities fields : List String) (ops : List CreateOp) :
    studentInvariant (runCreates cities fields ops emptyStore) = true :=
  invariant_runCreates cities fields ops emptyStore (by decide)

end SMS
